import Mathlib

set_option maxRecDepth 8000

/-!
Shallow embedding of the LuaBinder adapter (LuaBinder.h / LuaBinder.inl).

The adapter bridges native C++ functions to the Lua 5.3 runtime: a value
decoder (the LuaValue constructor), a per-argument type checker
(CheckSingleArg / CheckArgs), a stack-to-native marshaler (PopArgs), a
native-to-stack result encoder (PushResult), and the trampoline
(Binder::StaticBinding) that sequences them.

Modelling conventions:
- The Lua call stack is a list of runtime values, indexed 1-based from the
  bottom, exactly as the positive indices used by the source.
- A Lua number carries its 5.3 subtype: integer subtype (constructor
  `integer`) or float subtype (constructor `number`); `lua_isinteger`
  queries the subtype, never the value, matching the C API.
- C/C++ floating point (float, lua_Number) is abstracted as ℚ; the
  float-to-int cast is modelled as truncation toward zero, matching
  `static_cast<int>` on in-range values.  Machine integer widths are
  abstracted (the payloads the binder moves are always in range).
- The C string boundary is modelled: `std::string(const char *)` and
  `lua_pushstring` both read a zero-terminated buffer, so they keep only
  the prefix of the text before the first NUL character (`luaCStr`).
- The C++ union member `value` is modelled as a record whose fields all
  start from the `std::memset(&value, 0, sizeof(value))` zero state
  (`unionZero`); the constructor then sets exactly one field, and reading
  another field yields that zero state.
- Side effects are reified: the diagnostics printed with `std::cout`
  become lists of strings, and each native invocation made by the
  trampoline is recorded (with its argument bundle) in `callArgs`.
-/

/-! ### The Lua 5.3 runtime boundary (external collaborator) -/

/-- One dynamic value held by the Lua runtime.  `integer`/`number` are the
two subtypes of `LUA_TNUMBER`; `userdata` is a heavy opaque handle and
`lightuserdata` a light one, both carrying a raw address. -/
inductive LuaRTVal where
  | nil
  | boolean (b : Bool)
  | integer (n : Int)
  | number (x : ℚ)
  | str (s : String)
  | table
  | userdata (a : ℕ)
  | lightuserdata (a : ℕ)
  | luafunction
  deriving DecidableEq

/-- The Lua type tags returned by `lua_type`. -/
inductive LuaTag where
  | tNil
  | tBoolean
  | tNumber
  | tString
  | tTable
  | tUserdata
  | tLightUserdata
  | tFunction
  deriving DecidableEq

/-- Tag query `lua_type`: the runtime type tag of a value.  Both number subtypes
report `LUA_TNUMBER`. -/
def lua_type : LuaRTVal → LuaTag
  | .nil => .tNil
  | .boolean _ => .tBoolean
  | .integer _ => .tNumber
  | .number _ => .tNumber
  | .str _ => .tString
  | .table => .tTable
  | .userdata _ => .tUserdata
  | .lightuserdata _ => .tLightUserdata
  | .luafunction => .tFunction

/-- Value of a list of decimal digit characters. -/
def digitsVal (cs : List Char) : ℕ :=
  cs.foldl (fun a c => 10 * a + (c.toNat - 48)) 0

/-- Core of the Lua string-to-number conversion, modelled for plain decimal
numerals: digits with an optional fractional part (Char.ofNat 46 is the
dot).  Hex and exponent forms are not modelled; no claim depends on them. -/
def luaNumCore (cs : List Char) : Option ℚ :=
  let ip := cs.takeWhile Char.isDigit
  match cs.dropWhile Char.isDigit with
  | [] => if ip = [] then none else some (digitsVal ip)
  | c :: frac =>
    if c = Char.ofNat 46 ∧ frac.all Char.isDigit ∧ (ip ≠ [] ∨ frac ≠ []) then
      some ((digitsVal ip : ℚ) + (digitsVal frac : ℚ) / (10 ^ frac.length : ℚ))
    else none

/-- The Lua string-to-number conversion (an optional leading minus sign,
Char.ofNat 45, then a decimal numeral). -/
def lua_str2number (s : String) : Option ℚ :=
  match s.toList with
  | [] => none
  | c :: cs =>
    if c = Char.ofNat 45 then (luaNumCore cs).map (fun q => -q)
    else luaNumCore (c :: cs)

/-- Predicate `lua_isboolean`: the value is a boolean. -/
def lua_isboolean : LuaRTVal → Bool
  | .boolean _ => true
  | _ => false

/-- Predicate `lua_isinteger`: the value is a number represented with the integer
subtype.  A float-subtype number is never an integer here, whatever its
value, and strings never qualify. -/
def lua_isinteger : LuaRTVal → Bool
  | .integer _ => true
  | _ => false

/-- Predicate `lua_isnumber`: the value is a number (either subtype) or a string
convertible to a number. -/
def lua_isnumber : LuaRTVal → Bool
  | .integer _ => true
  | .number _ => true
  | .str s => (lua_str2number s).isSome
  | _ => false

/-- Predicate `lua_isstring`: the value is a string or a number (numbers are always
convertible to strings, so the C API answers true for them too). -/
def lua_isstring : LuaRTVal → Bool
  | .str _ => true
  | .integer _ => true
  | .number _ => true
  | _ => false

/-- Predicate `lua_isuserdata`: the value is a userdata, full or light. -/
def lua_isuserdata : LuaRTVal → Bool
  | .userdata _ => true
  | .lightuserdata _ => true
  | _ => false

/-- Predicate `lua_islightuserdata`: the value is a light userdata. -/
def lua_islightuserdata : LuaRTVal → Bool
  | .lightuserdata _ => true
  | _ => false

/-- Reader `lua_toboolean`: nil and false are falsy, everything else is truthy. -/
def lua_toboolean : LuaRTVal → Bool
  | .nil => false
  | .boolean b => b
  | _ => true

/-- Reader `lua_tointeger`: the integer value if the value is an integer, an
integral float, or (not modelled) a convertible string; 0 otherwise.  The
binder only calls this under `lua_isinteger`. -/
def lua_tointeger : LuaRTVal → Int
  | .integer n => n
  | .number x => if x.den = 1 then x.num else 0
  | _ => 0

/-- Reader `lua_tonumber`: the numeric value, or 0 when there is none. -/
def lua_tonumber : LuaRTVal → ℚ
  | .integer n => (n : ℚ)
  | .number x => x
  | .str s => (lua_str2number s).getD 0
  | _ => 0

/-- Reader `lua_tostring`: the string payload.  The binder only calls this under
the `LUA_TSTRING` tag, so the number-to-string mutation path of the C API
is not modelled. -/
def lua_tostring : LuaRTVal → String
  | .str s => s
  | _ => ""

/-- Reader `lua_touserdata`: the raw address of a full or light userdata, NULL
(0) otherwise. -/
def lua_touserdata : LuaRTVal → ℕ
  | .userdata a => a
  | .lightuserdata a => a
  | _ => 0

/-- The Lua call stack handed to the trampoline. -/
abbrev LuaState := List LuaRTVal

/-- Stack size `lua_gettop`: number of values on the stack. -/
def lua_gettop (L : LuaState) : ℕ := L.length

/-- The value at 1-based stack position `i` (nil when out of range). -/
def lua_at (L : LuaState) (i : ℕ) : LuaRTVal := L.getD (i - 1) .nil

/-- Reading a zero-terminated `const char *` buffer made from a C++
string keeps only the prefix before the first NUL character.  This models
both `std::string(const char *)` and `lua_pushstring(L, s.c_str())`. -/
def luaCStr (s : String) : String :=
  String.mk (s.toList.takeWhile (fun c => c != Char.ofNat 0))

/-- Writer `lua_pushboolean`. -/
def lua_pushboolean (L : LuaState) (b : Bool) : LuaState := L ++ [.boolean b]

/-- Writer `lua_pushinteger`: pushes a number with the integer subtype. -/
def lua_pushinteger (L : LuaState) (n : Int) : LuaState := L ++ [.integer n]

/-- Writer `lua_pushnumber`: pushes a number with the float subtype (even for an
integral value). -/
def lua_pushnumber (L : LuaState) (x : ℚ) : LuaState := L ++ [.number x]

/-- Writer `lua_pushstring`: reads the zero-terminated buffer and pushes a copy
of it. -/
def lua_pushstring (L : LuaState) (s : String) : LuaState :=
  L ++ [.str (luaCStr s)]

/-- Writer `lua_pushlightuserdata`. -/
def lua_pushlightuserdata (L : LuaState) (a : ℕ) : LuaState :=
  L ++ [.lightuserdata a]

/-! ### The adapter (LuaBinder.inl) -/

/-- Enum `LuaValue::ValType`, the enum for the basic types the binder knows. -/
inductive ValType where
  | vtBool
  | vtInt
  | vtNumber
  | vtString
  | vtUserData
  | vtErr
  deriving DecidableEq

/-- The union `LuaValue::Value`, modelled as a record.  Fields are listed
in the order used by the source: `int i; float f; bool b; std::string s; void * u`. -/
structure LuaUnion where
  i : Int
  f : ℚ
  b : Bool
  s : String
  u : ℕ
  deriving DecidableEq

/-- The union right after `std::memset(&value, 0, sizeof(value))`: every
member reads as zero / false / empty. -/
def unionZero : LuaUnion := ⟨0, 0, false, "", 0⟩

/-- The zeroed union after `value.i = n`. -/
def unionInt (n : Int) : LuaUnion := ⟨n, 0, false, "", 0⟩

/-- The zeroed union after `value.f = x`. -/
def unionFloat (x : ℚ) : LuaUnion := ⟨0, x, false, "", 0⟩

/-- The zeroed union after `value.b = b`. -/
def unionBool (b : Bool) : LuaUnion := ⟨0, 0, b, "", 0⟩

/-- The zeroed union after `value.s = s`. -/
def unionStr (s : String) : LuaUnion := ⟨0, 0, false, s, 0⟩

/-- The zeroed union after `value.u = a`. -/
def unionPtr (a : ℕ) : LuaUnion := ⟨0, 0, false, "", a⟩

/-- Struct `LuaValue`: the tagged variant the decoder produces. -/
structure LuaValue where
  type : ValType
  value : LuaUnion
  deriving DecidableEq

/-- The `LuaValue(lua_State *, int)` constructor, as a function of the
runtime value it reads (it queries only position `i`): switch on
`lua_type`, with the `LUA_TNUMBER` case split by `lua_isinteger`, the
string case copying through the `const char *` boundary, and both
userdata tags mapped to `vtUserData`.  The default case leaves the
memset-zeroed union untouched. -/
def LuaValue.ofVal (v : LuaRTVal) : LuaValue :=
  match lua_type v with
  | .tBoolean => ⟨.vtBool, unionBool (lua_toboolean v)⟩
  | .tNumber =>
    if lua_isinteger v then ⟨.vtInt, unionInt (lua_tointeger v)⟩
    else ⟨.vtNumber, unionFloat (lua_tonumber v)⟩
  | .tString => ⟨.vtString, unionStr (luaCStr (lua_tostring v))⟩
  | .tLightUserdata => ⟨.vtUserData, unionPtr (lua_touserdata v)⟩
  | .tUserdata => ⟨.vtUserData, unionPtr (lua_touserdata v)⟩
  | _ => ⟨.vtErr, unionZero⟩

/-- The diagnostic the `LuaValue` constructor prints: only the default
(unsupported tag) case writes to `std::cout`. -/
def LuaValue.decodeDiag (v : LuaRTVal) : List String :=
  match lua_type v with
  | .tBoolean => []
  | .tNumber => []
  | .tString => []
  | .tLightUserdata => []
  | .tUserdata => []
  | _ => ["Type not supported by Lua Binder"]

/-- Decoding step `LuaValue val(L, i)`: decode the value at stack position `i`. -/
def LuaValue.ofStack (L : LuaState) (i : ℕ) : LuaValue :=
  LuaValue.ofVal (lua_at L i)

/-- Cast `static_cast<int>` on a float value: truncation toward zero. -/
def cIntOfFloat (x : ℚ) : Int := x.num.tdiv (x.den : Int)

/-- Extraction `GetValue<int>`: truncate the float payload when the kind is
`vtNumber`, otherwise return the int payload directly. -/
def LuaValue.GetValueInt (v : LuaValue) : Int :=
  if v.type = ValType.vtNumber then cIntOfFloat v.value.f else v.value.i

/-- Extraction `GetValue<float>`: widen the int payload when the kind is `vtInt`,
otherwise return the float payload directly. -/
def LuaValue.GetValueFloat (v : LuaValue) : ℚ :=
  if v.type = ValType.vtInt then (v.value.i : ℚ) else v.value.f

/-- Extraction `GetValue<bool>`: the bool payload, unconditionally. -/
def LuaValue.GetValueBool (v : LuaValue) : Bool := v.value.b

/-- Extraction `GetValue<std::string>`: the string payload, unconditionally. -/
def LuaValue.GetValueString (v : LuaValue) : String := v.value.s

/-- Extraction `GetValue<void *>`: the userdata payload, unconditionally. -/
def LuaValue.GetValuePtr (v : LuaValue) : ℕ := v.value.u

/-- A native parameter type, as the C++ templates discriminate them: the
four explicit `CheckSingleArg` specializations, pointer types, and
`pOther` for any other unspecialized type (which still instantiates the
generic `CheckSingleArg` template). -/
inductive ParamTy where
  | pInt
  | pFloat
  | pBool
  | pString
  | pPtr
  | pOther
  deriving DecidableEq

/-- A native value, one constructor per supported native type; `vPtr`
holds the raw address a pointer argument was reinterpreted from. -/
inductive NativeVal where
  | vInt (n : Int)
  | vFloat (x : ℚ)
  | vBool (b : Bool)
  | vString (s : String)
  | vPtr (a : ℕ)
  deriving DecidableEq

/-- Checker `CheckSingleArg<T>(L, i)` as a function of the value at position `i`:
the four explicit specializations use the native predicates of the runtime, and
every other type, pointer or not, falls to the unspecialized template
`lua_isuserdata(L, i) || lua_islightuserdata(L, i)`. -/
def CheckSingleArg : ParamTy → LuaRTVal → Bool
  | .pInt, v => lua_isinteger v
  | .pFloat, v => lua_isnumber v
  | .pString, v => lua_isstring v
  | .pBool, v => lua_isboolean v
  | _, v => lua_isuserdata v || lua_islightuserdata v

/-- Checker `CheckArgs<Arg, Rest...>(L, i)`: check position `i`, fail immediately
on mismatch, otherwise recurse on the rest at `i + 1`.  The empty list is
the `sizeof...(Rest) == 0` base case returning true. -/
def CheckArgs : List ParamTy → LuaState → ℕ → Bool
  | [], _, _ => true
  | p :: rest, L, i => CheckSingleArg p (lua_at L i) && CheckArgs rest L (i + 1)

/-- One marshaled argument: the `if constexpr (std::is_pointer<Arg>)`
branch of `PopArgs` reinterprets `GetValue<void*>`, the other branch
calls the matching `GetValue` specialization.  `pOther` has no `GetValue`
specialization in the source (such an instantiation does not link); the
value is junk and no theorem relies on it. -/
def popOne : ParamTy → LuaValue → NativeVal
  | .pPtr, val => .vPtr val.GetValuePtr
  | .pInt, val => .vInt val.GetValueInt
  | .pFloat, val => .vFloat val.GetValueFloat
  | .pBool, val => .vBool val.GetValueBool
  | .pString, val => .vString val.GetValueString
  | .pOther, _ => .vInt 0

/-- Marshaler `PopArgs<Arg, Rest...>(L, i)`: decode position `i`, extract one
native value, and concatenate with the rest marshaled from `i + 1`. -/
def PopArgs : List ParamTy → LuaState → ℕ → List NativeVal
  | [], _, _ => []
  | p :: rest, L, i => popOne p (LuaValue.ofStack L i) :: PopArgs rest L (i + 1)

/-- Encoder `PushResult`, one specialization per supported return type: pointer
as light userdata, int as integer, float as number, bool as boolean,
string through `lua_pushstring(L, value.c_str())`. -/
def PushResult (L : LuaState) : NativeVal → LuaState
  | .vPtr a => lua_pushlightuserdata L a
  | .vInt n => lua_pushinteger L n
  | .vFloat x => lua_pushnumber L x
  | .vBool b => lua_pushboolean L b
  | .vString s => lua_pushstring L s

/-- The observable outcome of one trampoline invocation: the result count
returned to Lua, the stack after any push, the argument bundle of each
native invocation made (exactly-once invocation means a one-element
list), and the diagnostics printed. -/
structure BindResult where
  results : ℕ
  stack : LuaState
  callArgs : List (List NativeVal)
  diags : List String
  deriving DecidableEq

/-- Trampoline `Binder<Return, Args...>::StaticBinding<Func>(L)`: arity check first,
then (for a nonzero parameter count) `CheckArgs`, then marshal, invoke,
and encode.  `isVoid` is the compile-time `std::is_void<Return>` split;
`f` stands for `Func`, with the arity-0 call `Func()` represented as
`f []` (and `PopArgs` of the empty list is `[]`, merging the two
`sizeof...(Args)` branches of the source). -/
def Binder.StaticBinding (isVoid : Bool) (ps : List ParamTy)
    (f : List NativeVal → NativeVal) (L : LuaState) : BindResult :=
  if lua_gettop L ≠ ps.length then
    ⟨0, L, [], ["Incorrect argument count"]⟩
  else if ps.length ≠ 0 ∧ CheckArgs ps L 1 = false then
    ⟨0, L, [], ["Incorrect argument type"]⟩
  else
    let args := PopArgs ps L 1
    if isVoid then ⟨0, L, [args], []⟩
    else ⟨1, PushResult L (f args), [args], []⟩

/-! ### Helper lemmas -/

/-- The value just pushed sits at position `lua_gettop L + 1`. -/
theorem lua_at_concat (L : LuaState) (v : LuaRTVal) :
    lua_at (L ++ [v]) (L.length + 1) = v := by
  unfold lua_at
  rw [Nat.add_sub_cancel, List.getD_append_right L [v] _ _ (Nat.le_refl _),
    Nat.sub_self]
  rfl

/-- Validation `CheckArgs` succeeds exactly when every position passes its
own per-parameter check. -/
theorem CheckArgs_eq_true_iff (ps : List ParamTy) (L : LuaState) (i : ℕ) :
    CheckArgs ps L i = true ↔
      ∀ k, (hk : k < ps.length) →
        CheckSingleArg (ps.get ⟨k, hk⟩) (lua_at L (i + k)) = true := by
  induction ps generalizing i with
  | nil =>
    constructor
    · intro _ k hk
      exact absurd hk (Nat.not_lt_zero k)
    · intro _
      rfl
  | cons p rest ih =>
    simp only [CheckArgs, Bool.and_eq_true, ih (i + 1)]
    constructor
    · rintro ⟨h1, h2⟩ k hk
      cases k with
      | zero => simpa using h1
      | succ k =>
        have hk' : k < rest.length := Nat.lt_of_succ_lt_succ hk
        have h3 := h2 k hk'
        have e : i + 1 + k = i + (k + 1) := by omega
        rw [e] at h3
        simpa using h3
    · intro h
      refine ⟨by simpa using h 0 (Nat.succ_pos _), fun k hk => ?_⟩
      have h3 := h (k + 1) (Nat.succ_lt_succ hk)
      have e : i + 1 + k = i + (k + 1) := by omega
      rw [← e] at h3
      simpa using h3

/-- The marshaled bundle has one element per parameter. -/
theorem PopArgs_length (ps : List ParamTy) (L : LuaState) (i : ℕ) :
    (PopArgs ps L i).length = ps.length := by
  induction ps generalizing i with
  | nil => rfl
  | cons p rest ih => simp [PopArgs, ih]

/-- Element `k` of the marshaled bundle is the extraction of the decoded
value at stack position `i + k`. -/
theorem PopArgs_get (ps : List ParamTy) (L : LuaState) (i k : ℕ)
    (hk : k < ps.length) :
    (PopArgs ps L i)[k]? =
      some (popOne (ps.get ⟨k, hk⟩) (LuaValue.ofStack L (i + k))) := by
  induction ps generalizing i k with
  | nil => exact absurd hk (Nat.not_lt_zero k)
  | cons p rest ih =>
    cases k with
    | zero => simp [PopArgs]
    | succ k =>
      have hk' : k < rest.length := Nat.lt_of_succ_lt_succ hk
      have h3 := ih (i + 1) k hk'
      have e : i + 1 + k = i + (k + 1) := by omega
      rw [e] at h3
      simpa [PopArgs] using h3

/-- A list is left unchanged by `takeWhile` when every element passes. -/
theorem takeWhile_of_all {α : Type} (p : α → Bool) :
    ∀ l : List α, (∀ c ∈ l, p c = true) → l.takeWhile p = l := by
  intro l
  induction l with
  | nil => intro _; rfl
  | cons c l ih =>
    intro h
    have hc : p c = true := h c (List.mem_cons_self c l)
    have hl : l.takeWhile p = l := ih fun d hd => h d (List.mem_cons_of_mem c hd)
    rw [List.takeWhile_cons_of_pos hc, hl]

/-- Reading through the zero-terminated boundary is the identity on
strings without an embedded NUL character. -/
theorem luaCStr_eq_self (s : String) (h : Char.ofNat 0 ∉ s.toList) :
    luaCStr s = s := by
  cases s with
  | mk data =>
    simp only [luaCStr, String.toList] at *
    rw [takeWhile_of_all _ data fun c hc => by
      simp only [bne_iff_ne, ne_eq]
      intro heq
      exact h (heq ▸ hc)]

/-- Pushing one result grows the stack by exactly one value. -/
theorem PushResult_length (L : LuaState) (v : NativeVal) :
    (PushResult L v).length = L.length + 1 := by
  cases v <;>
    simp [PushResult, lua_pushboolean, lua_pushinteger, lua_pushnumber,
      lua_pushstring, lua_pushlightuserdata]

/-! ### Claims -/

/-- C2: whenever the number of values on the stack differs from the
compile-time parameter count (including a parameter count of zero), the
trampoline emits the arity diagnostic, reports zero results, performs no
native invocation, and leaves the stack unchanged. -/
theorem C2_arity_mismatch_no_call (isVoid : Bool) (ps : List ParamTy)
    (f : List NativeVal → NativeVal) (L : LuaState)
    (hne : lua_gettop L ≠ ps.length) :
    (Binder.StaticBinding isVoid ps f L).results = 0 ∧
    (Binder.StaticBinding isVoid ps f L).callArgs = [] ∧
    (Binder.StaticBinding isVoid ps f L).diags = ["Incorrect argument count"] ∧
    (Binder.StaticBinding isVoid ps f L).stack = L := by
  simp [Binder.StaticBinding, hne]

/-- Witness for C2 at a concrete input: one stack value against a
zero-parameter signature. -/
theorem C2_arity_mismatch_no_call_witness :
    (Binder.StaticBinding false [] (fun _ => NativeVal.vInt 7)
      [LuaRTVal.integer 1]).results = 0 ∧
    (Binder.StaticBinding false [] (fun _ => NativeVal.vInt 7)
      [LuaRTVal.integer 1]).callArgs = [] ∧
    (Binder.StaticBinding false [] (fun _ => NativeVal.vInt 7)
      [LuaRTVal.integer 1]).diags = ["Incorrect argument count"] ∧
    (Binder.StaticBinding false [] (fun _ => NativeVal.vInt 7)
      [LuaRTVal.integer 1]).stack = [LuaRTVal.integer 1] :=
  C2_arity_mismatch_no_call false [] (fun _ => NativeVal.vInt 7)
    [LuaRTVal.integer 1] (by decide)

/-- C4: each per-parameter check is the native predicate the runtime itself provides for
that kind (is-boolean / is-integer / is-number / is-string), the integer
check keys on the integral-ness subtype of the runtime (a float-subtype number
always fails it, however numeric), and the pointer check accepts exactly
the heavy and light opaque handles with no discrimination of the pointee. -/
theorem C4_check_uses_runtime_predicates :
    (∀ v, CheckSingleArg .pBool v = lua_isboolean v) ∧
    (∀ v, CheckSingleArg .pInt v = lua_isinteger v) ∧
    (∀ v, CheckSingleArg .pFloat v = lua_isnumber v) ∧
    (∀ v, CheckSingleArg .pString v = lua_isstring v) ∧
    (∀ v, CheckSingleArg .pPtr v = (lua_isuserdata v || lua_islightuserdata v)) ∧
    (∀ v, lua_isinteger v = true ↔ ∃ n, v = LuaRTVal.integer n) ∧
    (∀ x : ℚ, CheckSingleArg .pInt (LuaRTVal.number x) = false) ∧
    (∀ v, CheckSingleArg .pPtr v = true ↔
      (∃ a, v = LuaRTVal.userdata a) ∨ (∃ a, v = LuaRTVal.lightuserdata a)) := by
  refine ⟨fun v => rfl, fun v => rfl, fun v => rfl, fun v => rfl, fun v => rfl,
    ?_, fun x => rfl, ?_⟩
  · intro v
    cases v <;> simp [lua_isinteger]
  · intro v
    cases v <;> simp [CheckSingleArg, lua_isuserdata, lua_islightuserdata]

/-- C5: the decoder maps each runtime tag to the documented variant and
payload (boolean read, integer read under the integral subtype, floating
read otherwise, a copy of the text read, the raw address for both opaque
tags), classifies every other tag as the error variant with the
memset-zero payload while emitting exactly the non-fatal diagnostic, and
decodes each position purely from the value at that position. -/
theorem C5_decoder_tag_mapping :
    (∀ b, LuaValue.ofVal (.boolean b) = ⟨.vtBool, unionBool b⟩) ∧
    (∀ n, LuaValue.ofVal (.integer n) = ⟨.vtInt, unionInt n⟩) ∧
    (∀ x, LuaValue.ofVal (.number x) = ⟨.vtNumber, unionFloat x⟩) ∧
    (∀ s, LuaValue.ofVal (.str s) = ⟨.vtString, unionStr (luaCStr s)⟩) ∧
    (∀ a, LuaValue.ofVal (.userdata a) = ⟨.vtUserData, unionPtr a⟩) ∧
    (∀ a, LuaValue.ofVal (.lightuserdata a) = ⟨.vtUserData, unionPtr a⟩) ∧
    (LuaValue.ofVal .nil = ⟨.vtErr, unionZero⟩) ∧
    (LuaValue.ofVal .table = ⟨.vtErr, unionZero⟩) ∧
    (LuaValue.ofVal .luafunction = ⟨.vtErr, unionZero⟩) ∧
    (∀ v, LuaValue.decodeDiag v =
      if (LuaValue.ofVal v).type = ValType.vtErr
      then ["Type not supported by Lua Binder"] else []) ∧
    (∀ L i, LuaValue.ofStack L i = LuaValue.ofVal (lua_at L i)) := by
  refine ⟨fun b => rfl, fun n => rfl, fun x => rfl, fun s => rfl, fun a => rfl,
    fun a => rfl, rfl, rfl, rfl, ?_, fun L i => rfl⟩
  intro v
  cases v <;> rfl

/-- C9: a numeric dynamic value passes the text parameter check (the
is-string query of the runtime coerces numbers), yet the decoder classifies it
as Int or Number, never Text, and the text extraction then returns the
memset-zero string payload the decoder never assigned. -/
theorem C9_text_check_number_gap :
    CheckSingleArg .pString (LuaRTVal.integer 5) = true ∧
    (LuaValue.ofVal (LuaRTVal.integer 5)).type = ValType.vtInt ∧
    (LuaValue.ofVal (LuaRTVal.integer 5)).type ≠ ValType.vtString ∧
    (LuaValue.ofVal (LuaRTVal.integer 5)).GetValueString = unionZero.s ∧
    (∀ x : ℚ, CheckSingleArg .pString (LuaRTVal.number x) = true ∧
      (LuaValue.ofVal (LuaRTVal.number x)).type = ValType.vtNumber) :=
  ⟨rfl, rfl, by decide, rfl, fun x => ⟨rfl, rfl⟩⟩

/-- C6: extracting a native int from a Number-kind value truncates the
floating payload toward zero (3.7 yields 3) and extracting a native float
from an Int-kind value widens the integer payload (5 yields 5.0); in
every other kind/type pairing the stored payload is returned directly. -/
theorem C6_numeric_leniency :
    (∀ t u, t = ValType.vtNumber →
      LuaValue.GetValueInt ⟨t, u⟩ = cIntOfFloat u.f) ∧
    (∀ t u, t ≠ ValType.vtNumber → LuaValue.GetValueInt ⟨t, u⟩ = u.i) ∧
    (∀ t u, t = ValType.vtInt → LuaValue.GetValueFloat ⟨t, u⟩ = (u.i : ℚ)) ∧
    (∀ t u, t ≠ ValType.vtInt → LuaValue.GetValueFloat ⟨t, u⟩ = u.f) ∧
    LuaValue.GetValueInt (LuaValue.ofVal (.number ((37 : ℚ)/10))) = 3 ∧
    LuaValue.GetValueFloat (LuaValue.ofVal (.integer 5)) = 5 := by
  refine ⟨?_, ?_, ?_, ?_, ?_, ?_⟩
  · intro t u h
    simp [LuaValue.GetValueInt, h]
  · intro t u h
    simp [LuaValue.GetValueInt, h]
  · intro t u h
    simp [LuaValue.GetValueFloat, h]
  · intro t u h
    simp [LuaValue.GetValueFloat, h]
  · show cIntOfFloat ((37 : ℚ)/10) = 3
    unfold cIntOfFloat
    have h1 : ((37 : ℚ)/10).num = 37 := by norm_num
    have h2 : ((37 : ℚ)/10).den = 10 := by norm_num
    rw [h1, h2]
    decide
  · show ((5 : Int) : ℚ) = 5
    norm_num

/-- Witness for C6 at concrete kinds and payloads. -/
theorem C6_numeric_leniency_witness :
    LuaValue.GetValueInt ⟨ValType.vtNumber, unionFloat ((37 : ℚ)/10)⟩ =
      cIntOfFloat (unionFloat ((37 : ℚ)/10)).f ∧
    LuaValue.GetValueInt ⟨ValType.vtBool, unionZero⟩ = unionZero.i ∧
    LuaValue.GetValueFloat ⟨ValType.vtInt, unionInt 5⟩ = ((unionInt 5).i : ℚ) ∧
    LuaValue.GetValueFloat ⟨ValType.vtString, unionStr "x"⟩ = (unionStr "x").f := by
  have h := C6_numeric_leniency
  exact ⟨h.1 _ _ rfl, h.2.1 _ _ (by decide), h.2.2.1 _ _ rfl,
    h.2.2.2.1 _ _ (by decide)⟩

/-- C10: for every parameter type other than int, float, bool and text —
pointer types and any other unspecialized type alike — the per-position
check accepts exactly the heavy and light opaque handles. -/
theorem C10_generic_check_catchall (p : ParamTy)
    (h1 : p ≠ ParamTy.pInt) (h2 : p ≠ ParamTy.pFloat)
    (h3 : p ≠ ParamTy.pBool) (h4 : p ≠ ParamTy.pString) :
    ∀ v, CheckSingleArg p v = (lua_isuserdata v || lua_islightuserdata v) ∧
      (CheckSingleArg p v = true ↔
        (∃ a, v = LuaRTVal.userdata a) ∨ (∃ a, v = LuaRTVal.lightuserdata a)) := by
  intro v
  cases p with
  | pInt => exact absurd rfl h1
  | pFloat => exact absurd rfl h2
  | pBool => exact absurd rfl h3
  | pString => exact absurd rfl h4
  | pPtr =>
    exact ⟨rfl, by
      cases v <;> simp [CheckSingleArg, lua_isuserdata, lua_islightuserdata]⟩
  | pOther =>
    exact ⟨rfl, by
      cases v <;> simp [CheckSingleArg, lua_isuserdata, lua_islightuserdata]⟩

/-- Witness for C10: a non-pointer unspecialized type accepts a heavy
handle, and a pointer type accepts a light one. -/
theorem C10_generic_check_catchall_witness :
    CheckSingleArg ParamTy.pOther (LuaRTVal.userdata 5) =
      (lua_isuserdata (LuaRTVal.userdata 5) ||
        lua_islightuserdata (LuaRTVal.userdata 5)) ∧
    CheckSingleArg ParamTy.pOther (LuaRTVal.userdata 5) = true ∧
    CheckSingleArg ParamTy.pPtr (LuaRTVal.lightuserdata 3) = true := by
  refine ⟨(C10_generic_check_catchall .pOther (by decide) (by decide) (by decide)
      (by decide) _).1, ?_, ?_⟩
  · exact (C10_generic_check_catchall .pOther (by decide) (by decide) (by decide)
      (by decide) _).2.mpr (Or.inl ⟨5, rfl⟩)
  · exact (C10_generic_check_catchall .pPtr (by decide) (by decide) (by decide)
      (by decide) _).2.mpr (Or.inr ⟨3, rfl⟩)

/-- C3: with correct arity but a failing per-position check somewhere, the
whole validation is false and the trampoline reports zero results with no
native invocation; and the false outcome is already determined by the
stack positions up to the first mismatch — any stack agreeing with this
one on positions 1 through k+1 also fails validation, whatever it holds
beyond them. -/
theorem C3_type_mismatch_no_call (isVoid : Bool) (ps : List ParamTy)
    (f : List NativeVal → NativeVal) (L : LuaState) (k : ℕ)
    (hk : k < ps.length)
    (hlen : lua_gettop L = ps.length)
    (hfail : CheckSingleArg (ps.get ⟨k, hk⟩) (lua_at L (1 + k)) = false)
    (_hbefore : ∀ j, (hj : j < k) →
      CheckSingleArg (ps.get ⟨j, Nat.lt_trans hj hk⟩) (lua_at L (1 + j)) = true) :
    CheckArgs ps L 1 = false ∧
    (Binder.StaticBinding isVoid ps f L).results = 0 ∧
    (Binder.StaticBinding isVoid ps f L).callArgs = [] ∧
    (∀ L2 : LuaState, (∀ m, m ≤ k → lua_at L2 (1 + m) = lua_at L (1 + m)) →
      CheckArgs ps L2 1 = false) := by
  have hmain : ∀ L2 : LuaState,
      (∀ m, m ≤ k → lua_at L2 (1 + m) = lua_at L (1 + m)) →
      CheckArgs ps L2 1 = false := by
    intro L2 hag
    cases hC : CheckArgs ps L2 1 with
    | false => rfl
    | true =>
      exfalso
      have hall := (CheckArgs_eq_true_iff ps L2 1).mp hC k hk
      rw [hag k (Nat.le_refl k), hfail] at hall
      exact Bool.false_ne_true hall
  have hfalse : CheckArgs ps L 1 = false := hmain L (fun m _ => rfl)
  have hne : ps.length ≠ 0 := by omega
  refine ⟨hfalse, ?_, ?_, hmain⟩ <;>
    simp [Binder.StaticBinding, hlen, hfalse, hne]

/-- Witness for C3: mismatch at the second position after a passing first
position, and the failure persists for a stack agreeing on the first two
positions. -/
theorem C3_type_mismatch_no_call_witness :
    CheckArgs [ParamTy.pInt, ParamTy.pInt]
      [LuaRTVal.integer 1, LuaRTVal.boolean true] 1 = false ∧
    (Binder.StaticBinding false [ParamTy.pInt, ParamTy.pInt]
      (fun _ => NativeVal.vInt 0)
      [LuaRTVal.integer 1, LuaRTVal.boolean true]).results = 0 ∧
    (Binder.StaticBinding false [ParamTy.pInt, ParamTy.pInt]
      (fun _ => NativeVal.vInt 0)
      [LuaRTVal.integer 1, LuaRTVal.boolean true]).callArgs = [] ∧
    CheckArgs [ParamTy.pInt, ParamTy.pInt]
      [LuaRTVal.integer 1, LuaRTVal.boolean true, LuaRTVal.userdata 9] 1 = false := by
  have h := C3_type_mismatch_no_call false [ParamTy.pInt, ParamTy.pInt]
    (fun _ => NativeVal.vInt 0) [LuaRTVal.integer 1, LuaRTVal.boolean true] 1
    (by decide) (by decide) (by decide)
    (fun j hj => by
      have hj0 : j = 0 := by omega
      subst hj0
      exact rfl)
  refine ⟨h.1, h.2.1, h.2.2.1, h.2.2.2
    [LuaRTVal.integer 1, LuaRTVal.boolean true, LuaRTVal.userdata 9] ?_⟩
  intro m hm
  have : m = 0 ∨ m = 1 := by omega
  rcases this with hm0 | hm1
  · subst hm0; rfl
  · subst hm1; rfl

/-- C1: with matching arity and passing validation, the trampoline makes
exactly one native invocation, whose argument bundle is `PopArgs`; the
bundle has one element per parameter, and element k is the extraction —
pointer parameters reinterpreting the opaque-handle payload — of the
value decoded at stack position k+1, preserving parameter order. -/
theorem C1_trampoline_positional_bundle (isVoid : Bool) (ps : List ParamTy)
    (f : List NativeVal → NativeVal) (L : LuaState)
    (_hsup : ∀ p ∈ ps, p ≠ ParamTy.pOther)
    (hlen : lua_gettop L = ps.length)
    (hchk : CheckArgs ps L 1 = true) :
    (Binder.StaticBinding isVoid ps f L).callArgs = [PopArgs ps L 1] ∧
    (PopArgs ps L 1).length = ps.length ∧
    (∀ k, (hk : k < ps.length) →
      (PopArgs ps L 1)[k]? =
        some (popOne (ps.get ⟨k, hk⟩) (LuaValue.ofStack L (1 + k)))) := by
  refine ⟨?_, PopArgs_length ps L 1, fun k hk => PopArgs_get ps L 1 k hk⟩
  cases isVoid <;> simp [Binder.StaticBinding, hlen, hchk]

/-- Witness for C1: a three-parameter signature (int, bool, pointer) with
matching arguments marshals the bundle positionally. -/
theorem C1_trampoline_positional_bundle_witness :
    (Binder.StaticBinding false [ParamTy.pInt, ParamTy.pBool, ParamTy.pPtr]
      (fun _ => NativeVal.vInt 0)
      [LuaRTVal.integer 3, LuaRTVal.boolean true, LuaRTVal.lightuserdata 7]).callArgs
      = [PopArgs [ParamTy.pInt, ParamTy.pBool, ParamTy.pPtr]
          [LuaRTVal.integer 3, LuaRTVal.boolean true, LuaRTVal.lightuserdata 7] 1] ∧
    PopArgs [ParamTy.pInt, ParamTy.pBool, ParamTy.pPtr]
      [LuaRTVal.integer 3, LuaRTVal.boolean true, LuaRTVal.lightuserdata 7] 1
      = [NativeVal.vInt 3, NativeVal.vBool true, NativeVal.vPtr 7] := by
  have h := C1_trampoline_positional_bundle false
    [ParamTy.pInt, ParamTy.pBool, ParamTy.pPtr] (fun _ => NativeVal.vInt 0)
    [LuaRTVal.integer 3, LuaRTVal.boolean true, LuaRTVal.lightuserdata 7]
    (by decide) (by decide) (by decide)
  exact ⟨h.1, by decide⟩

/-- C8: the reported result count is exactly determined by the outcome —
at most one result ever, the stack grows by exactly the reported count, a
void return reports zero with no push, every failure path reports zero
with no native invocation, and a non-void success reports exactly one
with exactly one push. -/
theorem C8_result_count_determined (isVoid : Bool) (ps : List ParamTy)
    (f : List NativeVal → NativeVal) (L : LuaState) :
    (Binder.StaticBinding isVoid ps f L).results ≤ 1 ∧
    (Binder.StaticBinding isVoid ps f L).stack.length =
      L.length + (Binder.StaticBinding isVoid ps f L).results ∧
    (isVoid = true → (Binder.StaticBinding isVoid ps f L).results = 0 ∧
      (Binder.StaticBinding isVoid ps f L).stack = L) ∧
    (¬(lua_gettop L = ps.length ∧ CheckArgs ps L 1 = true) →
      (Binder.StaticBinding isVoid ps f L).results = 0 ∧
      (Binder.StaticBinding isVoid ps f L).callArgs = []) ∧
    (lua_gettop L = ps.length → CheckArgs ps L 1 = true → isVoid = false →
      (Binder.StaticBinding isVoid ps f L).results = 1 ∧
      (Binder.StaticBinding isVoid ps f L).stack.length = L.length + 1) := by
  by_cases h1 : lua_gettop L = ps.length
  · by_cases h2 : CheckArgs ps L 1 = true
    · cases isVoid with
      | true =>
        have hr : Binder.StaticBinding true ps f L =
            ⟨0, L, [PopArgs ps L 1], []⟩ := by
          simp [Binder.StaticBinding, h1, h2]
        rw [hr]
        exact ⟨by simp, by simp, fun _ => ⟨rfl, rfl⟩,
          fun h => absurd ⟨h1, h2⟩ h, fun _ _ hv => Bool.noConfusion hv⟩
      | false =>
        have hr : Binder.StaticBinding false ps f L =
            ⟨1, PushResult L (f (PopArgs ps L 1)), [PopArgs ps L 1], []⟩ := by
          simp [Binder.StaticBinding, h1, h2]
        rw [hr]
        refine ⟨by simp, ?_, fun hv => Bool.noConfusion hv,
          fun h => absurd ⟨h1, h2⟩ h, fun _ _ _ => ⟨rfl, PushResult_length L _⟩⟩
        simpa using PushResult_length L (f (PopArgs ps L 1))
    · have h2f : CheckArgs ps L 1 = false := by
        cases hC : CheckArgs ps L 1 with
        | true => exact absurd hC h2
        | false => rfl
      have hne : ps.length ≠ 0 := by
        intro h0
        have hnil : ps = [] := List.length_eq_zero.mp h0
        rw [hnil] at h2f
        simp [CheckArgs] at h2f
      have hr : Binder.StaticBinding isVoid ps f L =
          ⟨0, L, [], ["Incorrect argument type"]⟩ := by
        simp [Binder.StaticBinding, h1, h2f, hne]
      rw [hr]
      refine ⟨by simp, by simp, fun _ => ⟨rfl, rfl⟩, fun _ => ⟨rfl, rfl⟩,
        fun _ hc _ => ?_⟩
      rw [h2f] at hc
      exact Bool.noConfusion hc
  · have hr : Binder.StaticBinding isVoid ps f L =
        ⟨0, L, [], ["Incorrect argument count"]⟩ := by
      simp [Binder.StaticBinding, h1]
    rw [hr]
    exact ⟨by simp, by simp, fun _ => ⟨rfl, rfl⟩, fun _ => ⟨rfl, rfl⟩,
      fun hl _ _ => absurd hl h1⟩

/-- Witness for C8: a one-parameter non-void success reports one result
and one push; the same call with a void return reports zero. -/
theorem C8_result_count_determined_witness :
    (Binder.StaticBinding false [ParamTy.pInt] (fun _ => NativeVal.vBool true)
      [LuaRTVal.integer 2]).results = 1 ∧
    (Binder.StaticBinding false [ParamTy.pInt] (fun _ => NativeVal.vBool true)
      [LuaRTVal.integer 2]).stack.length = 2 ∧
    (Binder.StaticBinding true [ParamTy.pInt] (fun _ => NativeVal.vBool true)
      [LuaRTVal.integer 2]).results = 0 := by
  have h := C8_result_count_determined false [ParamTy.pInt]
    (fun _ => NativeVal.vBool true) [LuaRTVal.integer 2]
  have hv := C8_result_count_determined true [ParamTy.pInt]
    (fun _ => NativeVal.vBool true) [LuaRTVal.integer 2]
  refine ⟨(h.2.2.2.2 (by decide) (by decide) rfl).1, ?_, (hv.2.2.1 rfl).1⟩
  have hlen := (h.2.2.2.2 (by decide) (by decide) rfl).2
  simpa using hlen

/-- C7 counterexample: the Text round-trip fails as universally stated.
Encoding the native string "a", NUL, "b" goes through
`lua_pushstring(L, value.c_str())`, which reads the zero-terminated
buffer and pushes only "a"; decoding the same position therefore does not
reproduce the original payload. -/
theorem C7_roundtrip_counterexample :
    ¬ ((LuaValue.ofStack
          (PushResult []
            (NativeVal.vString (String.mk [Char.ofNat 97, Char.ofNat 0, Char.ofNat 98])))
          1).value.s
        = String.mk [Char.ofNat 97, Char.ofNat 0, Char.ofNat 98]) := by
  decide

/-- C7 (amended): encoding then decoding the same stack position
round-trips every Bool, Int and Number value and every raw opaque-handle
address unchanged; a Text value round-trips whenever it contains no NUL
character (with an embedded NUL, only the prefix before it survives the
zero-terminated encoder boundary). -/
theorem C7_roundtrip_amended (L : LuaState) (b : Bool) (n : Int) (x : ℚ)
    (s : String) (a : ℕ) :
    LuaValue.ofStack (PushResult L (.vBool b)) (lua_gettop L + 1) =
      ⟨.vtBool, unionBool b⟩ ∧
    LuaValue.ofStack (PushResult L (.vInt n)) (lua_gettop L + 1) =
      ⟨.vtInt, unionInt n⟩ ∧
    LuaValue.ofStack (PushResult L (.vFloat x)) (lua_gettop L + 1) =
      ⟨.vtNumber, unionFloat x⟩ ∧
    (Char.ofNat 0 ∉ s.toList →
      LuaValue.ofStack (PushResult L (.vString s)) (lua_gettop L + 1) =
        ⟨.vtString, unionStr s⟩) ∧
    lua_touserdata (lua_at (PushResult L (.vPtr a)) (lua_gettop L + 1)) = a ∧
    LuaValue.ofStack (PushResult L (.vPtr a)) (lua_gettop L + 1) =
      ⟨.vtUserData, unionPtr a⟩ := by
  refine ⟨?_, ?_, ?_, ?_, ?_, ?_⟩
  · show LuaValue.ofVal (lua_at (L ++ [.boolean b]) (L.length + 1)) = _
    rw [lua_at_concat]
    rfl
  · show LuaValue.ofVal (lua_at (L ++ [.integer n]) (L.length + 1)) = _
    rw [lua_at_concat]
    rfl
  · show LuaValue.ofVal (lua_at (L ++ [.number x]) (L.length + 1)) = _
    rw [lua_at_concat]
    rfl
  · intro h
    have e : luaCStr s = s := luaCStr_eq_self s h
    show LuaValue.ofVal (lua_at (L ++ [.str (luaCStr s)]) (L.length + 1)) = _
    rw [lua_at_concat, e]
    show (⟨.vtString, unionStr (luaCStr s)⟩ : LuaValue) = _
    rw [e]
  · show lua_touserdata (lua_at (L ++ [.lightuserdata a]) (L.length + 1)) = a
    rw [lua_at_concat]
    rfl
  · show LuaValue.ofVal (lua_at (L ++ [.lightuserdata a]) (L.length + 1)) = _
    rw [lua_at_concat]
    rfl

/-- Witness for C7 (amended) at concrete values, the Text case with the
NUL-free string "ok". -/
theorem C7_roundtrip_amended_witness :
    LuaValue.ofStack (PushResult [] (.vBool true)) (lua_gettop [] + 1) =
      ⟨.vtBool, unionBool true⟩ ∧
    LuaValue.ofStack (PushResult [] (.vInt 3)) (lua_gettop [] + 1) =
      ⟨.vtInt, unionInt 3⟩ ∧
    LuaValue.ofStack (PushResult [] (.vFloat 1)) (lua_gettop [] + 1) =
      ⟨.vtNumber, unionFloat 1⟩ ∧
    LuaValue.ofStack (PushResult [] (.vString "ok")) (lua_gettop [] + 1) =
      ⟨.vtString, unionStr "ok"⟩ ∧
    lua_touserdata (lua_at (PushResult [] (.vPtr 9)) (lua_gettop [] + 1)) = 9 ∧
    LuaValue.ofStack (PushResult [] (.vPtr 9)) (lua_gettop [] + 1) =
      ⟨.vtUserData, unionPtr 9⟩ := by
  have h := C7_roundtrip_amended [] true 3 1 "ok" 9
  exact ⟨h.1, h.2.1, h.2.2.1, h.2.2.2.1 (by decide), h.2.2.2.2.1, h.2.2.2.2.2⟩
